import Mathlib

/-!
Verification development for the ConsultasSII client (Vue/Pinia/TypeScript).

The TypeScript sources are shallowly embedded: every store action becomes a
pure state-transition function `env → state → state × result`, where `env`
packages the responses of the network calls the action performs (axios
requests are the only suspension points, so one response value per call site
fully determines the run).  JavaScript `||` on strings, optional chaining and
truthiness are modelled explicitly.  Decimal-string monetary fields that the
code pipes through `parseFloat` before any use are carried as `Rat` values;
locale formatters (`Intl.NumberFormat`, `toLocaleDateString`) and `Date`
comparisons are platform black boxes and enter as explicit function-valued
environment fields.
-/

instance {ε α : Type} [DecidableEq ε] [DecidableEq α] : DecidableEq (Except ε α) := fun x y =>
  match x, y with
  | .ok a, .ok b =>
    if h : a = b then .isTrue (congrArg Except.ok h)
    else .isFalse (fun hc => h (Except.ok.inj hc))
  | .error a, .error b =>
    if h : a = b then .isTrue (congrArg Except.error h)
    else .isFalse (fun hc => h (Except.error.inj hc))
  | .ok _, .error _ => .isFalse (fun hc => Except.noConfusion hc)
  | .error _, .ok _ => .isFalse (fun hc => Except.noConfusion hc)

/-- JS `a || b` for an optional string `a` (empty string is falsy). -/
def jsOr (a : Option String) (b : String) : String :=
  match a with
  | some s => if s = "" then b else s
  | none => b

/-- JS `a || undefined` for an optional string (empty string collapses to `undefined`). -/
def jsOrUndef (a : Option String) : Option String :=
  match a with
  | some s => if s = "" then none else some s
  | none => none

/-- Error shape of a rejected axios promise: `err.response?.data?.error`,
`err.response?.data?.message` and `err.message`, each possibly absent. -/
structure ApiError where
  responseError : Option String
  responseMessage : Option String
  message : Option String
deriving Repr, DecidableEq

/-- What a `try` block can throw: a transport/HTTP failure from an axios call,
or `new Error(msg)` thrown by the code itself (the domain error). -/
inductive JsErr where
  | transport (e : ApiError)
  | thrown (message : String)
deriving Repr, DecidableEq

/-- `err.response?.data?.error || err.message || fallback` as written in the
catch blocks of `src/stores/dte.ts`. -/
def dteCatchMessage (e : JsErr) (fallback : String) : String :=
  match e with
  | .transport a => jsOr a.responseError (jsOr a.message fallback)
  | .thrown m => jsOr (some m) fallback

/-- `err.response?.data?.message || fallback` as written in the catch blocks of
the folio-keyed notas store. -/
def notasCatchMessage (e : ApiError) (fallback : String) : String :=
  jsOr e.responseMessage fallback

/-! ## Data model (`src/types/api.ts`) -/

structure Empresa where
  rutEmpresa : String
  razonSocial : Option String
deriving Repr, DecidableEq

structure Periodo where
  periodoId : Nat
  rutEmpresa : String
  anio : Nat
  mes : Nat
deriving Repr, DecidableEq

structure TipoDte where
  tipoDte : Int
  descripcion : String
deriving Repr, DecidableEq

structure Proveedor where
  rutProveedor : String
  razonSocial : String
deriving Repr, DecidableEq

/-- Backend row of `otrosImpuestos`. -/
structure OtrosImpuestos where
  otroImpuestoId : Nat
  detalleId : Nat
  codigo : Int
  tasa : String
  valor : String
deriving Repr, DecidableEq

/-- Backend purchase summary row (monetary decimal strings carried as `Rat`,
the value `parseFloat` yields on them). -/
structure ResumenCompras where
  resumenId : Nat
  periodoId : Nat
  tipoDte : Int
  totalDocumentos : Nat
  montoExento : Rat
  montoNeto : Rat
  montoIvaRecuperable : Rat
  montoIvaNoRecuperable : Rat
  montoTotal : Rat
  estado : String
  tipoDteInfo : Option TipoDte
deriving Repr, DecidableEq

/-- The annotation record attached to a backend detail row (`detalle.nota`),
read via optional chaining in `transformDetalleCompras`. -/
structure NotaInfo where
  comentario : Option String
  contabilizado : Option Bool
  pagado : Option Bool
deriving Repr, DecidableEq

/-- Backend purchase detail row. -/
structure DetalleCompras where
  detalleId : Nat
  periodoId : Nat
  tipoDte : Int
  tipoCompra : String
  rutProveedor : String
  folio : String
  fechaEmision : String
  fechaRecepcion : String
  acuseRecibo : Option String
  fechaAcuse : Option String
  montoExento : Rat
  montoNeto : Rat
  montoIvaRecuperable : Rat
  montoIvaNoRecuperable : Rat
  codigoIvaNoRecuperable : Option Int
  montoTotal : Rat
  montoNetoActivoFijo : Rat
  ivaActivoFijo : Rat
  ivaUsoComun : Rat
  impuestoSinDerechoCredito : Rat
  ivaNoRetenido : Rat
  tabacosPuros : Option Rat
  tabacosCigarrillos : Option Rat
  tabacosElaborados : Option Rat
  nceNdeFacturaCompra : Rat
  valorOtroImpuesto : Option String
  tasaOtroImpuesto : Option String
  codigoOtroImpuesto : Option Int
  estado : String
  tipoDteInfo : Option TipoDte
  proveedor : Option Proveedor
  nota : Option NotaInfo
  otrosImpuestos : Option (List OtrosImpuestos)
deriving Repr, DecidableEq

structure PageInfo where
  total : Nat
  page : Nat
  limit : Nat
  totalPages : Nat
deriving Repr, DecidableEq

/-- Response shape of `getDetalleCompras`: `{ data, pagination }`. -/
structure DetalleResponse where
  data : List DetalleCompras
  pagination : PageInfo
deriving Repr, DecidableEq

/-- Legacy `otrosImpuestos` entry. -/
structure OtroImpuesto where
  valor : String
  tasa : String
  codigo : Int
deriving Repr, DecidableEq

/-- Legacy purchase detail row consumed by the view layer. -/
structure DetalleCompra where
  tipoDTEString : String
  tipoDTE : Int
  tipoCompra : String
  rutProveedor : String
  razonSocial : String
  folio : Int
  fechaEmision : String
  fechaRecepcion : String
  acuseRecibo : Option String
  montoExento : Rat
  montoNeto : Rat
  montoIvaRecuperable : Rat
  montoIvaNoRecuperable : Rat
  codigoIvaNoRecuperable : Int
  montoTotal : Rat
  montoNetoActivoFijo : Rat
  ivaActivoFijo : Rat
  ivaUsoComun : Rat
  impuestoSinDerechoCredito : Rat
  ivaNoRetenido : Rat
  tabacosPuros : Option Rat
  tabacosCigarrillos : Option Rat
  tabacosElaborados : Option Rat
  nceNdeFacturaCompra : Rat
  valorOtroImpuesto : String
  tasaOtroImpuesto : String
  codigoOtroImpuesto : Int
  comentario : Option String
  contabilizado : Bool
  pagado : Bool
  estado : String
  fechaAcuse : Option String
  otrosImpuestos : Option (List OtroImpuesto)
deriving Repr, DecidableEq

/-- Legacy purchase summary row. -/
structure ResumenCompra where
  tipoDte : Int
  tipoDteString : String
  totalDocumentos : Nat
  montoExento : Rat
  montoNeto : Rat
  ivaRecuperable : Rat
  ivaUsoComun : Rat
  ivaNoRecuperable : Rat
  montoTotal : Rat
  estado : String
deriving Repr, DecidableEq

structure Caratula where
  rutEmpresa : String
  nombreMes : String
  mes : Nat
  anio : Nat
  dia : Option Nat
  periodo : String
deriving Repr, DecidableEq

structure Compras where
  resumenes : List ResumenCompra
  detalleCompras : List DetalleCompra
deriving Repr, DecidableEq

structure Ventas where
  resumenes : List Unit
  detalleVentas : List Unit
deriving Repr, DecidableEq

structure FormResponse where
  caratula : Caratula
  compras : Compras
  ventas : Ventas
deriving Repr, DecidableEq

/-! ## Ledger store (`src/stores/dte.ts`, `useFormsStore`) -/

namespace DteStore

/-- `getMonthName`: 1-based index into the Spanish month names, JS negative /
out-of-range indexing yielding the fallback label. -/
def getMonthName (monthNumber : Nat) : String :=
  let months := ["Enero", "Febrero", "Marzo", "Abril", "Mayo", "Junio",
    "Julio", "Agosto", "Septiembre", "Octubre", "Noviembre", "Diciembre"]
  if monthNumber = 0 then "Mes Desconocido"
  else (months.get? (monthNumber - 1)).getD "Mes Desconocido"

/-- `mes.toString().padStart(2, '0')`. -/
def padStart2 (s : String) : String :=
  if s.length < 2 then "0" ++ s else s

/-- `transformResumenCompras` from `src/stores/dte.ts`. -/
def transformResumenCompras (resumen : ResumenCompras) : ResumenCompra :=
  { tipoDte := resumen.tipoDte
    tipoDteString := jsOr (resumen.tipoDteInfo.map (·.descripcion))
      ("Tipo " ++ toString resumen.tipoDte)
    totalDocumentos := resumen.totalDocumentos
    montoExento := resumen.montoExento
    montoNeto := resumen.montoNeto
    ivaRecuperable := resumen.montoIvaRecuperable
    ivaUsoComun := 0
    ivaNoRecuperable := resumen.montoIvaNoRecuperable
    montoTotal := resumen.montoTotal
    estado := resumen.estado }

/-- `parseInt` on the well-formed numeric folio strings the backend sends. -/
def jsParseInt (s : String) : Int :=
  (s.toInt?).getD 0

/-- `transformDetalleCompras` from `src/stores/dte.ts`. -/
def transformDetalleCompras (detalle : DetalleCompras) : DetalleCompra :=
  { tipoDTEString := jsOr (detalle.tipoDteInfo.map (·.descripcion))
      ("Tipo " ++ toString detalle.tipoDte)
    tipoDTE := detalle.tipoDte
    tipoCompra := detalle.tipoCompra
    rutProveedor := detalle.rutProveedor
    razonSocial := jsOr (detalle.proveedor.map (·.razonSocial)) "Sin razón social"
    folio := jsParseInt detalle.folio
    fechaEmision := detalle.fechaEmision
    fechaRecepcion := detalle.fechaRecepcion
    acuseRecibo := jsOrUndef detalle.acuseRecibo
    montoExento := detalle.montoExento
    montoNeto := detalle.montoNeto
    montoIvaRecuperable := detalle.montoIvaRecuperable
    montoIvaNoRecuperable := detalle.montoIvaNoRecuperable
    codigoIvaNoRecuperable := detalle.codigoIvaNoRecuperable.getD 0
    montoTotal := detalle.montoTotal
    montoNetoActivoFijo := detalle.montoNetoActivoFijo
    ivaActivoFijo := detalle.ivaActivoFijo
    ivaUsoComun := detalle.ivaUsoComun
    impuestoSinDerechoCredito := detalle.impuestoSinDerechoCredito
    ivaNoRetenido := detalle.ivaNoRetenido
    tabacosPuros := detalle.tabacosPuros
    tabacosCigarrillos := detalle.tabacosCigarrillos
    tabacosElaborados := detalle.tabacosElaborados
    nceNdeFacturaCompra := detalle.nceNdeFacturaCompra
    valorOtroImpuesto := detalle.valorOtroImpuesto.getD ""
    tasaOtroImpuesto := detalle.tasaOtroImpuesto.getD ""
    codigoOtroImpuesto := detalle.codigoOtroImpuesto.getD 0
    comentario := jsOrUndef (detalle.nota.bind (·.comentario))
    contabilizado := (detalle.nota.bind (·.contabilizado)).getD false
    pagado := (detalle.nota.bind (·.pagado)).getD false
    estado := detalle.estado
    fechaAcuse := detalle.fechaAcuse
    otrosImpuestos := detalle.otrosImpuestos.map
      (List.map fun oi => { valor := oi.valor, tasa := oi.tasa, codigo := oi.codigo }) }

/-- State of `useFormsStore` in `src/stores/dte.ts`. -/
structure FormsState where
  loading : Bool
  error : Option String
  data : Option FormResponse
  empresas : List Empresa
  selectedEmpresa : Option Empresa
  periodos : List Periodo
  selectedPeriodo : Option Periodo
  resumenCompras : List ResumenCompras
  detalleCompras : List DetalleCompras
  tiposDte : List TipoDte
  proveedores : List Proveedor
  currentMonth : String
  currentYear : String
deriving Repr, DecidableEq

/-- Responses of the gateway calls a run of the store's actions can make. -/
structure DteEnv where
  empresaByRut : Except ApiError Empresa
  periodosByEmpresa : Except ApiError (List Periodo)
  resumenCompras : Except ApiError (List ResumenCompras)
  detalleCompras : Except ApiError DetalleResponse
  allEmpresas : Except ApiError (List Empresa)
  allTiposDte : Except ApiError (List TipoDte)
  allProveedores : Except ApiError (List Proveedor)
deriving Repr, DecidableEq

/-- The message of the domain error `getAll` throws when no period matches. -/
def noPeriodosMsg : String :=
  "No se encontraron períodos para la empresa y fecha especificada"

/-- The `try` block of `getAll`: each awaited call either supplies its
response or aborts the block with the transport error; an empty period list
aborts it with the thrown domain error. -/
def getAllBody (env : DteEnv) (s : FormsState) :
    FormsState × Except JsErr FormResponse :=
  match env.empresaByRut with
  | .error e => (s, .error (.transport e))
  | .ok emp =>
    let s := { s with selectedEmpresa := some emp }
    match env.periodosByEmpresa with
    | .error e => (s, .error (.transport e))
    | .ok ps =>
      let s := { s with periodos := ps }
      match ps with
      | [] => (s, .error (.thrown noPeriodosMsg))
      | p :: _ =>
        let s := { s with selectedPeriodo := some p }
        match env.resumenCompras, env.detalleCompras with
        | .error e, _ => (s, .error (.transport e))
        | .ok _, .error e => (s, .error (.transport e))
        | .ok rs, .ok dr =>
          let s := { s with resumenCompras := rs, detalleCompras := dr.data }
          let transformed : FormResponse :=
            { caratula :=
                { rutEmpresa := emp.rutEmpresa
                  nombreMes := getMonthName p.mes
                  mes := p.mes
                  anio := p.anio
                  dia := none
                  periodo := toString p.anio ++ padStart2 (toString p.mes) }
              compras :=
                { resumenes := rs.map transformResumenCompras
                  detalleCompras := dr.data.map transformDetalleCompras }
              ventas := { resumenes := [], detalleVentas := [] } }
          ({ s with data := some transformed }, .ok transformed)

/-- `getAll(month?, year?)`: loading on, error reset, the `try` body, then the
catch (message extraction, error slot, rethrow) and the `finally` (loading
off).  The failure value keeps both what was thrown and the extracted
message. -/
def getAll (env : DteEnv) (month? year? : Option String) (s : FormsState) :
    FormsState × Except (JsErr × String) FormResponse :=
  let _actualMonth := month?.getD s.currentMonth
  let _actualYear := year?.getD s.currentYear
  let s := { s with loading := true, error := none }
  let (s, r) := getAllBody env s
  match r with
  | .ok d => ({ s with loading := false }, .ok d)
  | .error e =>
    let msg := dteCatchMessage e "An error occurred"
    ({ s with error := some msg, loading := false }, .error (e, msg))

/-- `loadEmpresas`. -/
def loadEmpresas (env : DteEnv) (s : FormsState) :
    FormsState × Except ApiError (List Empresa) :=
  let s := { s with loading := true }
  match env.allEmpresas with
  | .ok d => ({ s with empresas := d, loading := false }, .ok d)
  | .error e =>
    ({ s with
        error := some (dteCatchMessage (.transport e) "Error loading empresas")
        loading := false }, .error e)

/-- `loadPeriodosByEmpresa`. -/
def loadPeriodosByEmpresa (env : DteEnv) (_rutEmpresa : String)
    (_anio? _mes? : Option String) (s : FormsState) :
    FormsState × Except ApiError (List Periodo) :=
  let s := { s with loading := true }
  match env.periodosByEmpresa with
  | .ok d => ({ s with periodos := d, loading := false }, .ok d)
  | .error e =>
    ({ s with
        error := some (dteCatchMessage (.transport e) "Error loading períodos")
        loading := false }, .error e)

/-- `loadResumenCompras`. -/
def loadResumenCompras (env : DteEnv) (_periodoId? : Option String) (s : FormsState) :
    FormsState × Except ApiError (List ResumenCompras) :=
  let s := { s with loading := true }
  match env.resumenCompras with
  | .ok d => ({ s with resumenCompras := d, loading := false }, .ok d)
  | .error e =>
    ({ s with
        error := some (dteCatchMessage (.transport e) "Error loading resumen de compras")
        loading := false }, .error e)

/-- `loadDetalleCompras` (stores `response.data.data`, returns `response.data`). -/
def loadDetalleCompras (env : DteEnv) (_periodoId? : Option String)
    (_filters? : Option (List (String × String))) (s : FormsState) :
    FormsState × Except ApiError DetalleResponse :=
  let s := { s with loading := true }
  match env.detalleCompras with
  | .ok d => ({ s with detalleCompras := d.data, loading := false }, .ok d)
  | .error e =>
    ({ s with
        error := some (dteCatchMessage (.transport e) "Error loading detalle de compras")
        loading := false }, .error e)

/-- `loadTiposDte` — note: no `loading.value` assignment anywhere in it. -/
def loadTiposDte (env : DteEnv) (s : FormsState) :
    FormsState × Except ApiError (List TipoDte) :=
  match env.allTiposDte with
  | .ok d => ({ s with tiposDte := d }, .ok d)
  | .error e =>
    ({ s with error := some (dteCatchMessage (.transport e) "Error loading tipos DTE") },
      .error e)

/-- `loadProveedores` — note: no `loading.value` assignment anywhere in it. -/
def loadProveedores (env : DteEnv) (_search? : Option String) (s : FormsState) :
    FormsState × Except ApiError (List Proveedor) :=
  match env.allProveedores with
  | .ok d => ({ s with proveedores := d }, .ok d)
  | .error e =>
    ({ s with error := some (dteCatchMessage (.transport e) "Error loading proveedores") },
      .error e)

end DteStore

/-! ## Annotation store (folio-keyed `useNotasStore` variant — the one the
invoice view consumes via `updateComment(folio, …)` / `updateContabilizado(folio, …)`) -/

/-- Replace the last element satisfying `p` by its image under `f` (the
`Map`-backed getter returns the last record with a given key, and the store
mutates the returned object in place). -/
def updateLastWhere {α : Type} (l : List α) (p : α → Bool) (f : α → α) : List α :=
  match l with
  | [] => []
  | a :: t =>
    if t.any p then a :: updateLastWhere t p f
    else if p a then f a :: t else a :: t

namespace NotasStore

/-- The `Notas` record.  Its interface lives in `../types/api` and is not among
the provided sources; the fields are reconstructed from the store's own object
literals (id, folio, comment, accounting flag, timestamps).  The paid flag is
Modelled from the spec: a Nota "holds comment text, accounting flag, paid flag,
creation/update timestamps, and a server-assigned id (0 is used as a sentinel
for 'not yet persisted')"; the store literals omit it, so it is optional. -/
structure Notas where
  notaId : Nat
  folio : String
  comentario : Option String
  contabilizado : Bool
  pagado : Option Bool
  createdAt : String
  updatedAt : String
deriving Repr, DecidableEq

/-- State of the folio-keyed `useNotasStore`. -/
structure NotasState where
  loading : Bool
  error : Option String
  notas : List Notas
deriving Repr, DecidableEq

/-- Responses of the gateway calls a run of the store's actions can make, plus
the wall clock used for `new Date().toISOString()`. -/
structure NotasEnv where
  getAllNotas : Except ApiError (List Notas)
  getNotaByFolio : Except ApiError Notas
  updateNotaComment : Except ApiError Notas
  updateNotaContabilizado : Except ApiError Notas
  now : String
deriving Repr, DecidableEq

/-- `getNotaByFolio` — goes through `notasMap`, a `Map` filled by iterating the
list and calling `set`, so a later record with the same folio shadows an
earlier one: lookup returns the last match. -/
def getNotaByFolio (notas : List Notas) (folio : String) : Option Notas :=
  notas.reverse.find? (fun n => n.folio == folio)

/-- `loadNotaByFolio`: fetch one nota, replace the first record with the folio
or append; failure is caught internally (returns `null`, sets the error slot). -/
def loadNotaByFolio (env : NotasEnv) (folio : String) (s : NotasState) :
    NotasState × Option Notas :=
  let s := { s with loading := true, error := none }
  match env.getNotaByFolio with
  | .ok r =>
    let s :=
      match s.notas.findIdx? (fun n => n.folio == folio) with
      | some i => { s with notas := s.notas.set i r }
      | none => { s with notas := s.notas ++ [r] }
    ({ s with loading := false }, some r)
  | .error e =>
    ({ s with
        error := some (notasCatchMessage e "Error loading nota")
        loading := false }, none)

/-- `updateComment(folio, comentario)`: server call; on success patch the
looked-up record in place, or append a sentinel-id placeholder and attempt the
reconciliation fetch (whose own failure never propagates). -/
def updateComment (env : NotasEnv) (folio comentario : String) (s : NotasState) :
    NotasState × Option Notas :=
  let s := { s with loading := true, error := none }
  match env.updateNotaComment with
  | .error e =>
    ({ s with
        error := some (notasCatchMessage e "Error updating comment")
        loading := false }, none)
  | .ok resp =>
    match getNotaByFolio s.notas folio with
    | some _ =>
      let s := { s with
        notas := updateLastWhere s.notas (fun n => n.folio == folio)
          (fun n => { n with comentario := some comentario, updatedAt := env.now }) }
      ({ s with loading := false }, some resp)
    | none =>
      let newNota : Notas :=
        { notaId := 0
          folio := folio
          comentario := some comentario
          contabilizado := false
          pagado := none
          createdAt := env.now
          updatedAt := env.now }
      let s := { s with notas := s.notas ++ [newNota] }
      let s := (loadNotaByFolio env folio s).1
      ({ s with loading := false }, some resp)

/-- `updateContabilizado(folio, contabilizado)`: same protocol as
`updateComment`, for the accounting flag. -/
def updateContabilizado (env : NotasEnv) (folio : String) (contabilizado : Bool)
    (s : NotasState) : NotasState × Option Notas :=
  let s := { s with loading := true, error := none }
  match env.updateNotaContabilizado with
  | .error e =>
    ({ s with
        error := some (notasCatchMessage e "Error updating contabilizado status")
        loading := false }, none)
  | .ok resp =>
    match getNotaByFolio s.notas folio with
    | some _ =>
      let s := { s with
        notas := updateLastWhere s.notas (fun n => n.folio == folio)
          (fun n => { n with contabilizado := contabilizado, updatedAt := env.now }) }
      ({ s with loading := false }, some resp)
    | none =>
      let newNota : Notas :=
        { notaId := 0
          folio := folio
          comentario := none
          contabilizado := contabilizado
          pagado := none
          createdAt := env.now
          updatedAt := env.now }
      let s := { s with notas := s.notas ++ [newNota] }
      let s := (loadNotaByFolio env folio s).1
      ({ s with loading := false }, some resp)

/-- The placeholder literal `updateContabilizado` appends when no local record
with the folio exists. -/
def contabPlaceholder (env : NotasEnv) (folio : String) (contabilizado : Bool) : Notas :=
  { notaId := 0
    folio := folio
    comentario := none
    contabilizado := contabilizado
    pagado := none
    createdAt := env.now
    updatedAt := env.now }

/-- The members the folio-keyed `useNotasStore` returns (its public API). -/
def storeMembers : List String :=
  ["loading", "error", "notas", "notasMap", "getNotaByFolio",
   "loadAllNotas", "loadNotaByFolio", "createNota", "updateNota",
   "updateComment", "updateContabilizado", "deleteNota", "clearNotas"]

/-- The members the composite-key `useNotasStore` variant returns. -/
def storeMembersComposite : List String :=
  ["loading", "error", "notas", "notasMap", "getNotaByCompositeKey",
   "getCompositeKey", "loadAllNotas", "loadNotaByCompositeKey", "createNota",
   "updateNota", "updateComment", "updateContabilizado", "deleteNota", "clearNotas"]

end NotasStore

/-- The members of `notasApi` in `src/services/api.ts`. -/
def notasApiMembers : List String :=
  ["getAllNotas", "getNotaByFolio", "createNota", "updateNota",
   "updateNotaComment", "updateNotaContabilizado", "updateNotaPagado", "deleteNota"]

/-- The store member `togglePagado` in `ListaFacturasView.vue` invokes as
`notasStore.updatePagado(compra.folio.toString(), newPagadoStatus)`. -/
def togglePagadoStoreCall : String := "updatePagado"

/-! ## Live event channel (`src/services/notificationService.ts`) -/

namespace Notif

/-- A socket.io client socket, reduced to its identity and connected flag. -/
structure Socket where
  sid : Nat
  connected : Bool
deriving Repr, DecidableEq

/-- `NotificationService` fields: the private socket and the reactive
`connected` ref. -/
structure ServiceState where
  socket : Option Socket
  connected : Bool
deriving Repr, DecidableEq

/-- The socket `io(serverUrl, { …, forceNew: true })` would hand back if a new
connection were created. -/
structure Env where
  newSocket : Socket
deriving Repr, DecidableEq

/-- `connect()`: `if (this.socket?.connected) return;` then build a fresh
socket and register the handlers (the handlers fire asynchronously and are not
part of this synchronous transition). -/
def connect (env : Env) (s : ServiceState) : ServiceState :=
  if (s.socket.map (·.connected)).getD false then s
  else { s with socket := some env.newSocket }

/-- `disconnect()`. -/
def disconnect (s : ServiceState) : ServiceState :=
  match s.socket with
  | some _ => { socket := none, connected := false }
  | none => s

end Notif

/-! ## View-state coordinator (`src/views/ListaFacturasView.vue`) -/

namespace ListaView

/-- A JS value a sortable column can hold (numbers carried as `Rat`). -/
inductive JsVal where
  | num (q : Rat)
  | str (s : String)
  | bool (b : Bool)
deriving Repr, DecidableEq

/-- JS `<` on two column values of the same runtime type (numbers numerically,
strings by code units, booleans via 0/1 coercion).  A fixed column always
yields one type, so the cross-type coercion cases never arise and are `false`. -/
def jsValLt : JsVal → JsVal → Bool
  | .num a, .num b => decide (a < b)
  | .str a, .str b => decide (a < b)
  | .bool a, .bool b => !a && b
  | _, _ => false

/-- The sortable keys of `DetalleCompra` the view can put in `sortConfig.field`. -/
inductive SortField where
  | tipoDTEString
  | rutProveedor
  | razonSocial
  | folio
  | fechaEmision
  | fechaRecepcion
  | montoNeto
  | montoIvaRecuperable
  | montoTotal
  | estado
  | comentario
  | contabilizado
  | pagado
deriving Repr, DecidableEq

/-- `a[sortConfig.field]` (`undefined` for an absent optional field). -/
def getField : SortField → DetalleCompra → Option JsVal
  | .tipoDTEString, c => some (.str c.tipoDTEString)
  | .rutProveedor, c => some (.str c.rutProveedor)
  | .razonSocial, c => some (.str c.razonSocial)
  | .folio, c => some (.num (c.folio : Rat))
  | .fechaEmision, c => some (.str c.fechaEmision)
  | .fechaRecepcion, c => some (.str c.fechaRecepcion)
  | .montoNeto, c => some (.num c.montoNeto)
  | .montoIvaRecuperable, c => some (.num c.montoIvaRecuperable)
  | .montoTotal, c => some (.num c.montoTotal)
  | .estado, c => some (.str c.estado)
  | .comentario, c => c.comentario.map .str
  | .contabilizado, c => some (.bool c.contabilizado)
  | .pagado, c => some (.bool c.pagado)

/-- `if (aValue > bValue) comparison = 1; if (aValue < bValue) comparison = -1`. -/
def compareVals (a b : JsVal) : Int :=
  if jsValLt b a then 1 else if jsValLt a b then -1 else 0

inductive SortDir where
  | asc
  | desc
deriving Repr, DecidableEq

structure SortConfig where
  field : SortField
  direction : SortDir
deriving Repr, DecidableEq

/-- The comparator passed to `compras.sort`: zero when either value is
null/undefined, otherwise the three-way comparison, negated for descending. -/
def compareRows (cfg : SortConfig) (a b : DetalleCompra) : Int :=
  let comparison :=
    match getField cfg.field a, getField cfg.field b with
    | some av, some bv => compareVals av bv
    | _, _ => 0
  match cfg.direction with
  | .desc => -comparison
  | .asc => comparison

/-- `compras.sort(comparator)` — a stable comparator-consistent sort, modelled
by insertion sort on `comparator ≤ 0`. -/
def sortCompras (cfg : SortConfig) (l : List DetalleCompra) : List DetalleCompra :=
  List.insertionSort (fun a b => compareRows cfg a b ≤ 0) l

/-- The `filters` ref.  The two amount bounds are the `parseFloat` value of the
numeric text field, `none` standing for the falsy empty string. -/
structure Filters where
  rutProveedor : String
  razonSocial : String
  tipoDte : String
  estado : String
  fechaDesde : String
  fechaHasta : String
  montoMinimo : Option Rat
  montoMaximo : Option Rat
deriving Repr, DecidableEq

/-- The `columnVisibility` ref. -/
structure ColumnVisibility where
  tipoDTE : Bool
  rutProveedor : Bool
  razonSocial : Bool
  folio : Bool
  fechaEmision : Bool
  fechaRecepcion : Bool
  montoNeto : Bool
  montoIva : Bool
  montoTotal : Bool
  estado : Bool
  contabilizado : Bool
  pagado : Bool
  comentario : Bool
  descargar : Bool
deriving Repr, DecidableEq

/-- Platform black boxes the view calls: `Intl.NumberFormat('es-CL', …)`,
`toLocaleDateString('es-CL')`, `Date` comparison and the current ISO date. -/
structure ViewEnv where
  formatCurrency : Rat → String
  formatDate : String → String
  dateGe : String → String → Bool
  dateLe : String → String → Bool
  todayIso : String

/-- The component state `filteredDetalleCompras`, `totales` and
`exportToExcel` read: the forms store's data and date selection plus the
view-local filter/sort/visibility refs. -/
structure ViewState where
  data : Option FormResponse
  currentMonth : String
  currentYear : String
  globalSearch : String
  filters : Filters
  sortConfig : SortConfig
  columnVisibility : ColumnVisibility

/-- JS `s.trim()`: strip whitespace from both ends (char-list based so that
it evaluates by kernel reduction). -/
def jsTrim (s : String) : String :=
  ⟨((s.toList.dropWhile Char.isWhitespace).reverse.dropWhile Char.isWhitespace).reverse⟩

/-- Char-list prefix test underlying the substring check. -/
def matchesAt : List Char → List Char → Bool
  | [], _ => true
  | _ :: _, [] => false
  | a :: as, b :: bs => a = b && matchesAt as bs

/-- Char-list substring occurrence test. -/
def containsSub (needle : List Char) : List Char → Bool
  | [] => needle.isEmpty
  | b :: t => matchesAt needle (b :: t) || containsSub needle t

/-- JS `hay.includes(needle)`. -/
def jsIncludes (hay needle : String) : Bool :=
  containsSub needle.toList hay.toList

/-- The `searchableText` joined inside the global-search filter. -/
def searchableText (env : ViewEnv) (compra : DetalleCompra) : String :=
  String.intercalate " "
    [compra.tipoDTEString,
     compra.rutProveedor,
     compra.razonSocial,
     toString compra.folio,
     env.formatDate compra.fechaEmision,
     env.formatDate compra.fechaRecepcion,
     env.formatCurrency compra.montoNeto,
     env.formatCurrency compra.montoIvaRecuperable,
     env.formatCurrency compra.montoTotal,
     compra.estado,
     compra.comentario.getD ""]

/-- `filteredDetalleCompras`: global search, the eight per-field filters in
source order, then the sort. -/
def filteredDetalleCompras (env : ViewEnv) (s : ViewState) : List DetalleCompra :=
  let compras := (s.data.map (fun d => d.compras.detalleCompras)).getD []
  let compras :=
    if jsTrim s.globalSearch ≠ "" then
      let searchTerm := jsTrim s.globalSearch.toLower
      compras.filter (fun c => jsIncludes (searchableText env c).toLower searchTerm)
    else compras
  let compras :=
    if s.filters.rutProveedor ≠ "" then
      compras.filter (fun c => jsIncludes c.rutProveedor.toLower s.filters.rutProveedor.toLower)
    else compras
  let compras :=
    if s.filters.razonSocial ≠ "" then
      compras.filter (fun c => jsIncludes c.razonSocial.toLower s.filters.razonSocial.toLower)
    else compras
  let compras :=
    if s.filters.tipoDte ≠ "" then
      compras.filter (fun c => toString c.tipoDTE == s.filters.tipoDte)
    else compras
  let compras :=
    if s.filters.estado ≠ "" then
      compras.filter (fun c => c.estado == s.filters.estado)
    else compras
  let compras :=
    if s.filters.fechaDesde ≠ "" then
      compras.filter (fun c => env.dateGe c.fechaEmision s.filters.fechaDesde)
    else compras
  let compras :=
    if s.filters.fechaHasta ≠ "" then
      compras.filter (fun c => env.dateLe c.fechaEmision s.filters.fechaHasta)
    else compras
  let compras :=
    match s.filters.montoMinimo with
    | some minimo => compras.filter (fun c => decide (minimo ≤ c.montoTotal))
    | none => compras
  let compras :=
    match s.filters.montoMaximo with
    | some maximo => compras.filter (fun c => decide (c.montoTotal ≤ maximo))
    | none => compras
  sortCompras s.sortConfig compras

/-- The `totales` computed property. -/
structure Totales where
  totalDocumentos : Nat
  montoTotal : Rat
  montoNeto : Rat
  ivaTotal : Rat
deriving Repr, DecidableEq

/-- `totales`: reductions over `detalleCompras.value`, which aliases
`filteredDetalleCompras`. -/
def totales (env : ViewEnv) (s : ViewState) : Totales :=
  let compras := filteredDetalleCompras env s
  { totalDocumentos := compras.length
    montoTotal := compras.foldl (fun sum compra => sum + compra.montoTotal) 0
    montoNeto := compras.foldl (fun sum compra => sum + compra.montoNeto) 0
    ivaTotal := compras.foldl (fun sum compra => sum + compra.montoIvaRecuperable) 0 }

/-- A spreadsheet cell as handed to `json_to_sheet`: a string or a raw number. -/
inductive CellVal where
  | str (s : String)
  | num (q : Rat)
deriving Repr, DecidableEq

/-- Whether a cell holds a string. -/
def CellVal.isText : CellVal → Bool
  | .str _ => true
  | .num _ => false

/-- The 13 column names of the export row object, in declaration order. -/
def exportHeader : List String :=
  ["Tipo DTE", "RUT Proveedor", "Razón Social", "Folio", "Fecha Emisión",
   "Fecha Recepción", "Monto Neto", "IVA Recuperable", "Monto Total",
   "Estado", "Contabilizado", "Pagado", "Comentario"]

/-- One element of `exportData`: the object literal built per row inside
`exportToExcel`, as an ordered key/cell list. -/
def exportRow (env : ViewEnv) (compra : DetalleCompra) : List (String × CellVal) :=
  [("Tipo DTE", .str compra.tipoDTEString),
   ("RUT Proveedor", .str compra.rutProveedor),
   ("Razón Social", .str compra.razonSocial),
   ("Folio", .num (compra.folio : Rat)),
   ("Fecha Emisión", .str (env.formatDate compra.fechaEmision)),
   ("Fecha Recepción", .str (env.formatDate compra.fechaRecepcion)),
   ("Monto Neto", .num compra.montoNeto),
   ("IVA Recuperable", .num compra.montoIvaRecuperable),
   ("Monto Total", .num compra.montoTotal),
   ("Estado", .str compra.estado),
   ("Contabilizado", .str (if compra.contabilizado then "Sí" else "No")),
   ("Pagado", .str (if compra.pagado then "Sí" else "No")),
   ("Comentario", .str (compra.comentario.getD ""))]

/-- The period label embedded in the export filename:
`${caratula?.nombreMes || currentMonth}-${caratula?.anio || currentYear}`. -/
def periodLabel (s : ViewState) : String :=
  let caratula := s.data.map (fun d => d.caratula)
  jsOr (caratula.map (fun c => c.nombreMes)) s.currentMonth ++ "-" ++
    (match caratula with
     | some c => if c.anio = 0 then s.currentYear else toString c.anio
     | none => s.currentYear)

/-- `exportToExcel`: the row objects passed to `XLSX.utils.json_to_sheet` and
the generated filename. -/
def exportToExcel (env : ViewEnv) (s : ViewState) :
    List (List (String × CellVal)) × String :=
  let exportData := (filteredDetalleCompras env s).map (exportRow env)
  let filename := "Libro_Compras_" ++ periodLabel s ++ "_" ++ env.todayIso ++ ".xlsx"
  (exportData, filename)

end ListaView

/-! ## Concrete fixtures used by witnesses, counterexamples and scenarios -/

def empresaA : Empresa :=
  { rutEmpresa := "65.145.564-2", razonSocial := some "Empresa A" }

def periodoA : Periodo :=
  { periodoId := 1, rutEmpresa := "65.145.564-2", anio := 2025, mes := 8 }

def apiErrA : ApiError :=
  { responseError := none, responseMessage := none, message := some "Network Error" }

def baseFormsState : DteStore.FormsState :=
  { loading := false, error := none, data := none, empresas := [],
    selectedEmpresa := none, periodos := [], selectedPeriodo := none,
    resumenCompras := [], detalleCompras := [], tiposDte := [],
    proveedores := [], currentMonth := "08", currentYear := "2025" }

/-- Environment where the company resolves but the period query for 2025-08
returns an empty list. -/
def envNoPeriods : DteStore.DteEnv :=
  { empresaByRut := .ok empresaA, periodosByEmpresa := .ok [],
    resumenCompras := .error apiErrA, detalleCompras := .error apiErrA,
    allEmpresas := .error apiErrA, allTiposDte := .ok [], allProveedores := .ok [] }

/-- Environment where every gateway call succeeds with an empty payload. -/
def envAllOk : DteStore.DteEnv :=
  { empresaByRut := .ok empresaA, periodosByEmpresa := .ok [periodoA],
    resumenCompras := .ok [],
    detalleCompras := .ok { data := [], pagination := { total := 0, page := 1, limit := 10000, totalPages := 0 } },
    allEmpresas := .ok [], allTiposDte := .ok [], allProveedores := .ok [] }

def baseDetalle : DetalleCompra :=
  { tipoDTEString := "FACTURA ELECTRÓNICA", tipoDTE := 33, tipoCompra := "Del Giro",
    rutProveedor := "11.111.111-1", razonSocial := "Proveedor Uno", folio := 1,
    fechaEmision := "2025-08-01", fechaRecepcion := "2025-08-02", acuseRecibo := none,
    montoExento := 0, montoNeto := 84, montoIvaRecuperable := 16,
    montoIvaNoRecuperable := 0, codigoIvaNoRecuperable := 0, montoTotal := 100,
    montoNetoActivoFijo := 0, ivaActivoFijo := 0, ivaUsoComun := 0,
    impuestoSinDerechoCredito := 0, ivaNoRetenido := 0, tabacosPuros := none,
    tabacosCigarrillos := none, tabacosElaborados := none, nceNdeFacturaCompra := 0,
    valorOtroImpuesto := "", tasaOtroImpuesto := "", codigoOtroImpuesto := 0,
    comentario := none, contabilizado := false, pagado := false,
    estado := "Confirmada", fechaAcuse := none, otrosImpuestos := none }

def row100 : DetalleCompra := baseDetalle

def row200 : DetalleCompra := { baseDetalle with folio := 2, montoTotal := 200 }

def row300 : DetalleCompra := { baseDetalle with folio := 3, montoTotal := 300 }

def caratulaA : Caratula :=
  { rutEmpresa := "65.145.564-2", nombreMes := "Agosto", mes := 8, anio := 2025,
    dia := none, periodo := "202508" }

def formResponseA : FormResponse :=
  { caratula := caratulaA,
    compras := { resumenes := [], detalleCompras := [row100, row200, row300] },
    ventas := { resumenes := [], detalleVentas := [] } }

def emptyFilters : ListaView.Filters :=
  { rutProveedor := "", razonSocial := "", tipoDte := "", estado := "",
    fechaDesde := "", fechaHasta := "", montoMinimo := none, montoMaximo := none }

/-- The default column-visibility set of the view (all on except download). -/
def defaultVisibility : ListaView.ColumnVisibility :=
  { tipoDTE := true, rutProveedor := true, razonSocial := true, folio := true,
    fechaEmision := true, fechaRecepcion := true, montoNeto := true,
    montoIva := true, montoTotal := true, estado := true, contabilizado := true,
    pagado := true, comentario := true, descargar := false }

/-- Concrete platform environment: a currency formatter, an identity date
formatter and trivially true date comparisons. -/
def viewEnv0 : ListaView.ViewEnv :=
  { formatCurrency := fun q => "$" ++ toString q, formatDate := fun d => d,
    dateGe := fun _ _ => true, dateLe := fun _ _ => true, todayIso := "2025-10-12" }

def viewStateA : ListaView.ViewState :=
  { data := some formResponseA, currentMonth := "08", currentYear := "2025",
    globalSearch := "", filters := emptyFilters,
    sortConfig := { field := .folio, direction := .asc },
    columnVisibility := defaultVisibility }

def viewStateB : ListaView.ViewState :=
  { viewStateA with filters := { emptyFilters with montoMinimo := some 200 } }

def emptyViewState : ListaView.ViewState := { viewStateA with data := none }

def notaA : NotasStore.Notas :=
  { notaId := 7, folio := "77", comentario := some "old", contabilizado := true,
    pagado := some false, createdAt := "2025-08-01T00:00:00.000Z",
    updatedAt := "2025-08-01T00:00:00.000Z" }

def notaServer : NotasStore.Notas :=
  { notaId := 42, folio := "123", comentario := none, contabilizado := true,
    pagado := none, createdAt := "2025-08-02T00:00:00.000Z",
    updatedAt := "2025-08-02T00:00:00.000Z" }

def notasState0 : NotasStore.NotasState :=
  { loading := false, error := none, notas := [] }

def notasState1 : NotasStore.NotasState :=
  { loading := false, error := none, notas := [notaA] }

/-- Notas environment whose reconciliation fetch fails. -/
def notasEnvFail : NotasStore.NotasEnv :=
  { getAllNotas := .ok [], getNotaByFolio := .error apiErrA,
    updateNotaComment := .ok notaServer, updateNotaContabilizado := .ok notaServer,
    now := "2025-10-12T00:00:00.000Z" }

/-- Notas environment whose calls all succeed. -/
def notasEnvOk : NotasStore.NotasEnv :=
  { getAllNotas := .ok [], getNotaByFolio := .ok notaServer,
    updateNotaComment := .ok notaServer, updateNotaContabilizado := .ok notaServer,
    now := "2025-10-12T00:00:00.000Z" }

/-! ## Claims -/

/-- C1: when the period query of `getAll` succeeds with an empty list, the
action fails with the thrown domain error (the `.thrown` constructor, distinct
from `.transport`), the loading flag is false afterwards, and the error slot
holds the non-empty domain message. -/
theorem claim_C1 (env : DteStore.DteEnv) (month? year? : Option String)
    (s : DteStore.FormsState) (emp : Empresa)
    (hEmp : env.empresaByRut = .ok emp)
    (hPer : env.periodosByEmpresa = .ok []) :
    (DteStore.getAll env month? year? s).2 =
        .error (.thrown DteStore.noPeriodosMsg, DteStore.noPeriodosMsg) ∧
    (DteStore.getAll env month? year? s).1.loading = false ∧
    (DteStore.getAll env month? year? s).1.error = some DteStore.noPeriodosMsg ∧
    DteStore.noPeriodosMsg ≠ "" := by
  simp [DteStore.getAll, DteStore.getAllBody, hEmp, hPer, dteCatchMessage, jsOr,
    DteStore.noPeriodosMsg]

theorem claim_C1_witness :
    (DteStore.getAll envNoPeriods none none baseFormsState).2 =
        .error (.thrown DteStore.noPeriodosMsg, DteStore.noPeriodosMsg) ∧
    (DteStore.getAll envNoPeriods none none baseFormsState).1.loading = false ∧
    (DteStore.getAll envNoPeriods none none baseFormsState).1.error =
        some DteStore.noPeriodosMsg ∧
    DteStore.noPeriodosMsg ≠ "" :=
  claim_C1 envNoPeriods none none baseFormsState empresaA rfl rfl

/-- C5: the folio-keyed annotation store (and likewise the composite-key
variant) does not return any `updatePagado` member, even though the invoice
view's `togglePagado` invokes exactly that member and the gateway exposes the
matching `updateNotaPagado` endpoint wrapper — evaluating the code at any
paid-checkbox click makes `notasStore.updatePagado` an undefined member. -/
theorem claim_C5 :
    togglePagadoStoreCall ∉ NotasStore.storeMembers ∧
    togglePagadoStoreCall ∉ NotasStore.storeMembersComposite ∧
    "updateNotaPagado" ∈ notasApiMembers ∧
    "updateComment" ∈ NotasStore.storeMembers ∧
    "updateContabilizado" ∈ NotasStore.storeMembers := by
  decide

/-- C9: `connect()` is a no-op whenever the socket exists and is connected —
the state (socket included) is returned unchanged and no new socket is
installed. -/
theorem claim_C9 (env : Notif.Env) (s : Notif.ServiceState) (sk : Notif.Socket)
    (hs : s.socket = some sk) (hc : sk.connected = true) :
    Notif.connect env s = s := by
  simp [Notif.connect, hs, hc]

theorem claim_C9_witness :
    Notif.connect { newSocket := { sid := 2, connected := false } }
      { socket := some { sid := 1, connected := true }, connected := true } =
      { socket := some { sid := 1, connected := true }, connected := true } :=
  claim_C9 _ _ { sid := 1, connected := true } rfl rfl

/-- C10 (counterexample): a failing `getAll` run — the no-period domain
failure — in which the `periodos` field changes, so failure does not leave
"only the error slot and loading flag" modified. -/
theorem claim_C10_counterexample :
    (DteStore.getAll envNoPeriods none none
        { baseFormsState with periodos := [periodoA] }).2 =
      .error (.thrown DteStore.noPeriodosMsg, DteStore.noPeriodosMsg) ∧
    (DteStore.getAll envNoPeriods none none
        { baseFormsState with periodos := [periodoA] }).1.periodos ≠ [periodoA] ∧
    (DteStore.getAll envNoPeriods none none
        { baseFormsState with periodos := [periodoA] }).1.selectedEmpresa ≠
      baseFormsState.selectedEmpresa := by
  decide

/-- C10 (amended): on every failing execution of `getAll` the denormalized
`data` field — and likewise `resumenCompras`, `detalleCompras`, `empresas`,
`tiposDte`, `proveedores` and the date selection — retains its previous value;
besides the error slot and loading flag, only the period-selection fields
(`selectedEmpresa`, `periodos`, `selectedPeriodo`) assigned before the failure
point may change. -/
theorem claim_C10 (env : DteStore.DteEnv) (month? year? : Option String)
    (s : DteStore.FormsState) (e : JsErr × String)
    (hFail : (DteStore.getAll env month? year? s).2 = .error e) :
    (DteStore.getAll env month? year? s).1.data = s.data ∧
    (DteStore.getAll env month? year? s).1.resumenCompras = s.resumenCompras ∧
    (DteStore.getAll env month? year? s).1.detalleCompras = s.detalleCompras ∧
    (DteStore.getAll env month? year? s).1.empresas = s.empresas ∧
    (DteStore.getAll env month? year? s).1.tiposDte = s.tiposDte ∧
    (DteStore.getAll env month? year? s).1.proveedores = s.proveedores ∧
    (DteStore.getAll env month? year? s).1.currentMonth = s.currentMonth ∧
    (DteStore.getAll env month? year? s).1.currentYear = s.currentYear := by
  obtain ⟨fE, fP, fR, fD, fA, fT, fV⟩ := env
  cases fE with
  | error e1 => simp [DteStore.getAll, DteStore.getAllBody]
  | ok emp =>
    cases fP with
    | error e2 => simp [DteStore.getAll, DteStore.getAllBody]
    | ok ps =>
      cases ps with
      | nil => simp [DteStore.getAll, DteStore.getAllBody]
      | cons p rest =>
        cases fR with
        | error e3 => simp [DteStore.getAll, DteStore.getAllBody]
        | ok rs =>
          cases fD with
          | error e4 => simp [DteStore.getAll, DteStore.getAllBody]
          | ok dr => simp [DteStore.getAll, DteStore.getAllBody] at hFail

theorem claim_C10_witness :
    (DteStore.getAll envNoPeriods none none baseFormsState).1.data =
        baseFormsState.data ∧
    (DteStore.getAll envNoPeriods none none baseFormsState).1.resumenCompras =
        baseFormsState.resumenCompras :=
  ⟨(claim_C10 envNoPeriods none none baseFormsState
      (.thrown DteStore.noPeriodosMsg, DteStore.noPeriodosMsg) (by decide)).1,
   (claim_C10 envNoPeriods none none baseFormsState
      (.thrown DteStore.noPeriodosMsg, DteStore.noPeriodosMsg) (by decide)).2.1⟩

/-- C8 (counterexample): `loadTiposDte` entered with the loading flag high
leaves it high even on success (it never touches the flag), and a successful
`loadEmpresas` does not reset a stale error slot at the action boundary. -/
theorem claim_C8_counterexample :
    (DteStore.loadTiposDte envAllOk
        { baseFormsState with loading := true }).1.loading = true ∧
    (DteStore.loadProveedores envAllOk none
        { baseFormsState with loading := true }).1.loading = true ∧
    (DteStore.loadEmpresas envAllOk
        { baseFormsState with error := some "stale" }).1.error = some "stale" := by
  decide

/-- C8 (amended): `getAll`, `loadEmpresas`, `loadPeriodosByEmpresa`,
`loadResumenCompras` and `loadDetalleCompras` leave the loading flag false on
every exit path, success or failure; `loadTiposDte` and `loadProveedores`
never modify the loading flag; only `getAll` resets the error slot on entry
(on success its error slot is `none`), while the other loaders touch the error
slot only on failure (on success it keeps its prior value). -/
theorem claim_C8 (env : DteStore.DteEnv) (month? year? anio? mes? pid? : Option String)
    (rut : String) (fl? : Option (List (String × String))) (search? : Option String)
    (s : DteStore.FormsState) :
    (DteStore.getAll env month? year? s).1.loading = false ∧
    (DteStore.loadEmpresas env s).1.loading = false ∧
    (DteStore.loadPeriodosByEmpresa env rut anio? mes? s).1.loading = false ∧
    (DteStore.loadResumenCompras env pid? s).1.loading = false ∧
    (DteStore.loadDetalleCompras env pid? fl? s).1.loading = false ∧
    (DteStore.loadTiposDte env s).1.loading = s.loading ∧
    (DteStore.loadProveedores env search? s).1.loading = s.loading ∧
    (∀ d, (DteStore.getAll env month? year? s).2 = .ok d →
      (DteStore.getAll env month? year? s).1.error = none) ∧
    (∀ d, (DteStore.loadEmpresas env s).2 = .ok d →
      (DteStore.loadEmpresas env s).1.error = s.error) ∧
    (∀ d, (DteStore.loadTiposDte env s).2 = .ok d →
      (DteStore.loadTiposDte env s).1.error = s.error) := by
  obtain ⟨fE, fP, fR, fD, fA, fT, fV⟩ := env
  refine ⟨?_, ?_, ?_, ?_, ?_, ?_, ?_, ?_, ?_, ?_⟩ <;>
    [skip; cases fA; cases fP; cases fR; cases fD; cases fT; cases fV; skip;
      cases fA; cases fT] <;>
    try simp [DteStore.getAll, DteStore.getAllBody, DteStore.loadEmpresas,
      DteStore.loadPeriodosByEmpresa, DteStore.loadResumenCompras,
      DteStore.loadDetalleCompras, DteStore.loadTiposDte, DteStore.loadProveedores]
  · cases fE with
    | error e1 => simp [DteStore.getAll, DteStore.getAllBody]
    | ok emp =>
      cases fP with
      | error e2 => simp [DteStore.getAll, DteStore.getAllBody]
      | ok ps =>
        cases ps with
        | nil => simp [DteStore.getAll, DteStore.getAllBody]
        | cons p rest =>
          cases fR with
          | error e3 => simp [DteStore.getAll, DteStore.getAllBody]
          | ok rs =>
            cases fD with
            | error e4 => simp [DteStore.getAll, DteStore.getAllBody]
            | ok dr => simp [DteStore.getAll, DteStore.getAllBody]
  · intro d hd
    cases fE with
    | error e1 => simp [DteStore.getAll, DteStore.getAllBody] at hd
    | ok emp =>
      cases fP with
      | error e2 => simp [DteStore.getAll, DteStore.getAllBody] at hd
      | ok ps =>
        cases ps with
        | nil => simp [DteStore.getAll, DteStore.getAllBody] at hd
        | cons p rest =>
          cases fR with
          | error e3 => simp [DteStore.getAll, DteStore.getAllBody] at hd
          | ok rs =>
            cases fD with
            | error e4 => simp [DteStore.getAll, DteStore.getAllBody] at hd
            | ok dr => simp [DteStore.getAll, DteStore.getAllBody]

theorem claim_C8_witness :
    (DteStore.getAll envAllOk none none baseFormsState).1.loading = false ∧
    (DteStore.loadTiposDte envAllOk baseFormsState).1.loading =
        baseFormsState.loading ∧
    (DteStore.loadEmpresas envAllOk baseFormsState).1.error =
        baseFormsState.error := by
  obtain h := claim_C8 envAllOk none none none none none "65.145.564-2" none none
    baseFormsState
  exact ⟨h.1, h.2.2.2.2.2.1, h.2.2.2.2.2.2.2.2.1 [] (by decide)⟩

/-- C2: the displayed grand total is the sum over the currently filtered rows
(and the document count their number), and on the scenario rows with totals
{100, 200, 300} the total is 600, while filtering to total ≥ 200 leaves 2 rows
summing to 500. -/
theorem claim_C2 :
    (∀ (env : ListaView.ViewEnv) (s : ListaView.ViewState),
      (ListaView.totales env s).montoTotal =
        ((ListaView.filteredDetalleCompras env s).map (fun c => c.montoTotal)).sum ∧
      (ListaView.totales env s).totalDocumentos =
        (ListaView.filteredDetalleCompras env s).length) ∧
    (ListaView.totales viewEnv0 viewStateA).montoTotal = 600 ∧
    (ListaView.filteredDetalleCompras viewEnv0 viewStateB).length = 2 ∧
    (ListaView.totales viewEnv0 viewStateB).montoTotal = 500 := by
  refine ⟨fun env s => ⟨?_, rfl⟩, ?_, by decide, ?_⟩
  · simp [ListaView.totales, List.sum_eq_foldl, List.foldl_map]
  · have hl : ListaView.filteredDetalleCompras viewEnv0 viewStateA =
        [row100, row200, row300] := by decide
    simp [ListaView.totales, hl, row100, row200, row300, baseDetalle]
    norm_num
  · have hl : ListaView.filteredDetalleCompras viewEnv0 viewStateB =
        [row200, row300] := by decide
    simp [ListaView.totales, hl, row200, row300, baseDetalle]
    norm_num

/-- The folio-keyed getter misses exactly when no record carries the folio. -/
theorem getNotaByFolio_eq_none_iff (notas : List NotasStore.Notas) (folio : String) :
    NotasStore.getNotaByFolio notas folio = none ↔
      ∀ n ∈ notas, (n.folio == folio) = false := by
  simp [NotasStore.getNotaByFolio, List.find?_eq_none, List.mem_reverse]

/-- C3: with no local record for the folio and a successful server call,
`updateContabilizado` appends the sentinel-id placeholder carrying the new
flag; a failing reconciliation fetch leaves the placeholder in place while the
call still returns the server response, and a successful reconciliation
replaces the placeholder by the fetched server record (in particular one with
a non-zero id and the same flag value). -/
theorem claim_C3 (env : NotasStore.NotasEnv) (folio : String) (flag : Bool)
    (s : NotasStore.NotasState) (resp : NotasStore.Notas)
    (hNone : NotasStore.getNotaByFolio s.notas folio = none)
    (hOk : env.updateNotaContabilizado = .ok resp) :
    (NotasStore.contabPlaceholder env folio flag).notaId = 0 ∧
    (NotasStore.contabPlaceholder env folio flag).contabilizado = flag ∧
    (NotasStore.contabPlaceholder env folio flag).folio = folio ∧
    (∀ e, env.getNotaByFolio = .error e →
      (NotasStore.updateContabilizado env folio flag s).1.notas =
        s.notas ++ [NotasStore.contabPlaceholder env folio flag] ∧
      (NotasStore.updateContabilizado env folio flag s).2 = some resp) ∧
    (∀ r, env.getNotaByFolio = .ok r → r.notaId ≠ 0 → r.contabilizado = flag →
      (NotasStore.updateContabilizado env folio flag s).1.notas = s.notas ++ [r] ∧
      (NotasStore.updateContabilizado env folio flag s).2 = some resp) := by
  refine ⟨rfl, rfl, rfl, ?_, ?_⟩
  · intro e hE
    simp [NotasStore.updateContabilizado, hOk, hNone, NotasStore.loadNotaByFolio,
      hE, NotasStore.contabPlaceholder]
  · intro r hR _hId _hFlag
    have hall : ∀ n ∈ s.notas, (n.folio == folio) = false :=
      (getNotaByFolio_eq_none_iff s.notas folio).mp hNone
    have hidx :
        (s.notas ++ [NotasStore.contabPlaceholder env folio flag]).findIdx?
            (fun n => n.folio == folio) = some s.notas.length := by
      rw [List.findIdx?_append, List.findIdx?_eq_none_iff.mpr hall]
      simp [NotasStore.contabPlaceholder, List.findIdx?_cons]
    have hset :
        (s.notas ++ [NotasStore.contabPlaceholder env folio flag]).set
            s.notas.length r = s.notas ++ [r] := by
      rw [List.set_append]
      simp
    simp only [NotasStore.updateContabilizado, hOk, hNone,
      NotasStore.loadNotaByFolio, hR]
    simp only [NotasStore.contabPlaceholder] at hidx hset
    simp [hidx, hset]

theorem claim_C3_witness :
    (NotasStore.updateContabilizado notasEnvFail "123" true notasState0).1.notas =
        notasState0.notas ++ [NotasStore.contabPlaceholder notasEnvFail "123" true] ∧
    (NotasStore.contabPlaceholder notasEnvFail "123" true).notaId = 0 ∧
    (NotasStore.contabPlaceholder notasEnvFail "123" true).contabilizado = true ∧
    (NotasStore.updateContabilizado notasEnvFail "123" true notasState0).2 =
        some notaServer := by
  obtain ⟨h1, h2, _h3, hA, _hB⟩ :=
    claim_C3 notasEnvFail "123" true notasState0 notaServer (by decide) rfl
  obtain ⟨hN, hR⟩ := hA apiErrA rfl
  exact ⟨hN, h1, h2, hR⟩

theorem updateLastWhere_length {α : Type} (l : List α) (p : α → Bool) (f : α → α) :
    (updateLastWhere l p f).length = l.length := by
  induction l with
  | nil => rfl
  | cons a t ih =>
    unfold updateLastWhere
    by_cases h1 : t.any p
    · simp [h1, ih]
    · by_cases h2 : p a <;> simp [h1, h2]

theorem updateLastWhere_get? {α : Type} (l : List α) (p : α → Bool) (f : α → α)
    (i : Nat) :
    (updateLastWhere l p f).get? i = l.get? i ∨
    (updateLastWhere l p f).get? i = (l.get? i).map f := by
  induction l generalizing i with
  | nil => left; rfl
  | cons a t ih =>
    unfold updateLastWhere
    by_cases h1 : t.any p
    · cases i with
      | zero => left; simp [h1]
      | succ j => simpa [h1] using ih j
    · by_cases h2 : p a
      · cases i with
        | zero => right; simp [h1, h2]
        | succ j => left; simp [h1, h2]
      · left; simp [h1, h2]

theorem find?_reverse_updateLastWhere {α : Type} (l : List α) (p : α → Bool)
    (f : α → α) (hpf : ∀ a, p (f a) = p a) :
    (updateLastWhere l p f).reverse.find? p = (l.reverse.find? p).map f := by
  induction l with
  | nil => rfl
  | cons a t ih =>
    unfold updateLastWhere
    by_cases h1 : t.any p
    · have hsome : ∃ x, t.reverse.find? p = some x := by
        rw [← Option.isSome_iff_exists, List.find?_isSome]
        obtain ⟨x, hx, hpx⟩ := List.any_eq_true.mp h1
        exact ⟨x, List.mem_reverse.mpr hx, hpx⟩
      obtain ⟨x, hx⟩ := hsome
      simp only [h1, if_true, List.reverse_cons, List.find?_append, ih, hx]
      rfl
    · have hnone : t.reverse.find? p = none := by
        rw [List.find?_eq_none]
        intro x hx
        have h1' : ∀ y ∈ t, p y = false := by
          simpa [List.any_eq_true] using h1
        simp [h1' x (List.mem_reverse.mp hx)]
      by_cases h2 : p a
      · simp [h1, h2, List.reverse_cons, List.find?_append, hnone, List.find?,
          hpf a]
      · simp [h1, h2, List.reverse_cons, List.find?_append, hnone, List.find?]

/-- C4: when a record with the folio is present, a comment-only update keeps
the list length, leaves every record either untouched or changed exactly in
its comment and update timestamp (so accounting and paid flags never change),
and the record the getter then returns is the original one with only the new
comment and timestamp. -/
theorem claim_C4 (env : NotasStore.NotasEnv) (folio comentario : String)
    (s : NotasStore.NotasState) (n resp : NotasStore.Notas)
    (hFound : NotasStore.getNotaByFolio s.notas folio = some n)
    (hOk : env.updateNotaComment = .ok resp) :
    (NotasStore.updateComment env folio comentario s).1.notas.length =
        s.notas.length ∧
    (∀ i : Nat,
      (NotasStore.updateComment env folio comentario s).1.notas.get? i =
          s.notas.get? i ∨
      (NotasStore.updateComment env folio comentario s).1.notas.get? i =
          (s.notas.get? i).map
            (fun m => { m with comentario := some comentario, updatedAt := env.now })) ∧
    NotasStore.getNotaByFolio
        (NotasStore.updateComment env folio comentario s).1.notas folio =
      some { n with comentario := some comentario, updatedAt := env.now } ∧
    (NotasStore.updateComment env folio comentario s).2 = some resp := by
  have hbody :
      (NotasStore.updateComment env folio comentario s).1.notas =
        updateLastWhere s.notas (fun m => m.folio == folio)
          (fun m => { m with comentario := some comentario, updatedAt := env.now }) := by
    simp [NotasStore.updateComment, hOk, hFound]
  have hret : (NotasStore.updateComment env folio comentario s).2 = some resp := by
    simp [NotasStore.updateComment, hOk, hFound]
  refine ⟨?_, ?_, ?_, hret⟩
  · rw [hbody]; exact updateLastWhere_length _ _ _
  · intro i
    rw [hbody]
    exact updateLastWhere_get? _ _ _ i
  · rw [hbody]
    show (updateLastWhere s.notas (fun m => m.folio == folio)
        (fun m => { m with comentario := some comentario, updatedAt := env.now })).reverse.find?
        (fun m => m.folio == folio) = _
    rw [find?_reverse_updateLastWhere s.notas (fun m => m.folio == folio)
      (fun m => { m with comentario := some comentario, updatedAt := env.now })
      (fun a => rfl)]
    have : s.notas.reverse.find? (fun m => m.folio == folio) = some n := hFound
    rw [this]
    rfl

theorem claim_C4_witness :
    (NotasStore.updateComment notasEnvOk "77" "hello" notasState1).1.notas.length =
        notasState1.notas.length ∧
    NotasStore.getNotaByFolio
        (NotasStore.updateComment notasEnvOk "77" "hello" notasState1).1.notas "77" =
      some { notaA with
             comentario := some "hello"
             updatedAt := "2025-10-12T00:00:00.000Z" } ∧
    (NotasStore.updateComment notasEnvOk "77" "hello" notasState1).2 =
        some notaServer := by
  obtain ⟨h1, _h2, h3, h4⟩ :=
    claim_C4 notasEnvOk "77" "hello" notasState1 notaA notaServer (by decide) rfl
  exact ⟨h1, h3, h4⟩

/-- C7 (amended): export serializes exactly the currently filtered and sorted
rows — 0 filtered rows means an empty row list handed to the sheet writer —
into records with the fixed 13-column header, independent of the
column-visibility set, with formatted dates and Sí/No flags but *raw numeric*
values (not localized currency strings) in the three monetary columns, and a
filename `Libro_Compras_<period>_<ISO-date>.xlsx`. -/
theorem claim_C7 (env : ListaView.ViewEnv) (s : ListaView.ViewState)
    (v : ListaView.ColumnVisibility) (c : DetalleCompra) :
    (ListaView.filteredDetalleCompras env s = [] →
      (ListaView.exportToExcel env s).1 = []) ∧
    (ListaView.exportToExcel env s).1 =
      (ListaView.filteredDetalleCompras env s).map (ListaView.exportRow env) ∧
    (ListaView.exportRow env c).map Prod.fst = ListaView.exportHeader ∧
    ListaView.exportHeader.length = 13 ∧
    ListaView.exportToExcel env { s with columnVisibility := v } =
      ListaView.exportToExcel env s ∧
    (ListaView.exportRow env c).lookup "Fecha Emisión" =
      some (.str (env.formatDate c.fechaEmision)) ∧
    (ListaView.exportRow env c).lookup "Fecha Recepción" =
      some (.str (env.formatDate c.fechaRecepcion)) ∧
    (ListaView.exportRow env c).lookup "Contabilizado" =
      some (.str (if c.contabilizado then "Sí" else "No")) ∧
    (ListaView.exportRow env c).lookup "Pagado" =
      some (.str (if c.pagado then "Sí" else "No")) ∧
    (ListaView.exportRow env c).lookup "Monto Neto" = some (.num c.montoNeto) ∧
    (ListaView.exportRow env c).lookup "IVA Recuperable" =
      some (.num c.montoIvaRecuperable) ∧
    (ListaView.exportRow env c).lookup "Monto Total" = some (.num c.montoTotal) ∧
    (ListaView.exportToExcel env s).2 =
      "Libro_Compras_" ++ ListaView.periodLabel s ++ "_" ++ env.todayIso ++ ".xlsx" := by
  refine ⟨fun h => ?_, rfl, rfl, rfl, rfl, rfl, rfl, rfl, rfl, rfl, rfl, rfl, rfl⟩
  simp [ListaView.exportToExcel, h]

theorem claim_C7_witness :
    ListaView.filteredDetalleCompras viewEnv0 emptyViewState = [] ∧
    (ListaView.exportToExcel viewEnv0 emptyViewState).1 = [] ∧
    ListaView.exportHeader.length = 13 := by
  have h := claim_C7 viewEnv0 emptyViewState defaultVisibility baseDetalle
  have hf : ListaView.filteredDetalleCompras viewEnv0 emptyViewState = [] := by
    decide
  exact ⟨hf, h.1 hf, h.2.2.2.1⟩

/-- C7 (counterexample): on a concrete row the "Monto Neto" cell is the raw
number 84, not a string — so the three monetary columns are not exported as
localized currency text, contrary to the claim. -/
theorem claim_C7_counterexample :
    (ListaView.exportRow viewEnv0 row100).lookup "Monto Neto" =
      some (ListaView.CellVal.num 84) ∧
    ((ListaView.exportRow viewEnv0 row100).lookup "Monto Neto").map
      ListaView.CellVal.isText = some false := by
  decide

theorem orderedInsert_pairwise_lt {α : Type} (cmp : α → α → Int)
    (hanti : ∀ a b, cmp a b = -cmp b a)
    (htrans : ∀ a b c, cmp a b < 0 → cmp b c < 0 → cmp a c < 0)
    (a : α) (l : List α)
    (hl : l.Pairwise (fun x y => cmp x y < 0))
    (ha : ∀ b ∈ l, cmp a b ≠ 0) :
    (List.orderedInsert (fun x y => cmp x y ≤ 0) a l).Pairwise
      (fun x y => cmp x y < 0) := by
  induction l with
  | nil => simp [List.orderedInsert]
  | cons b t ih =>
    rw [List.orderedInsert]
    split
    · rename_i hle
      have hab : cmp a b < 0 := lt_of_le_of_ne hle (ha b (List.mem_cons_self b t))
      rw [List.pairwise_cons]
      refine ⟨?_, hl⟩
      intro c hc
      rcases List.mem_cons.mp hc with rfl | hct
      · exact hab
      · exact htrans a b c hab ((List.pairwise_cons.mp hl).1 c hct)
    · rename_i hgt
      rw [List.pairwise_cons]
      constructor
      · intro c hc
        rcases (List.mem_orderedInsert (fun x y => cmp x y ≤ 0)).mp hc with rfl | hct
        · have h1 : ¬cmp c b ≤ 0 := hgt
          have h2 := hanti c b
          omega
        · exact (List.pairwise_cons.mp hl).1 c hct
      · exact ih (List.pairwise_cons.mp hl).2
          (fun b' hb' => ha b' (List.mem_cons_of_mem b hb'))

theorem insertionSort_pairwise_lt {α : Type} (cmp : α → α → Int)
    (hanti : ∀ a b, cmp a b = -cmp b a)
    (htrans : ∀ a b c, cmp a b < 0 → cmp b c < 0 → cmp a c < 0)
    (l : List α) (hl : l.Pairwise (fun x y => cmp x y ≠ 0)) :
    (List.insertionSort (fun x y => cmp x y ≤ 0) l).Pairwise
      (fun x y => cmp x y < 0) := by
  induction l with
  | nil => simp [List.insertionSort]
  | cons a t ih =>
    rw [List.insertionSort]
    apply orderedInsert_pairwise_lt cmp hanti htrans
    · exact ih (List.pairwise_cons.mp hl).2
    · intro b hb
      have hbt : b ∈ t :=
        ((List.perm_insertionSort (fun x y => cmp x y ≤ 0) t).mem_iff).mp hb
      exact (List.pairwise_cons.mp hl).1 b hbt

theorem eq_of_perm_of_pairwise_lt {α : Type} (cmp : α → α → Int)
    (hanti : ∀ a b, cmp a b = -cmp b a)
    (l₁ l₂ : List α) (hp : l₁.Perm l₂)
    (h₁ : l₁.Pairwise (fun x y => cmp x y < 0))
    (h₂ : l₂.Pairwise (fun x y => cmp x y < 0)) : l₁ = l₂ := by
  haveI : IsAntisymm α (fun x y => cmp x y < 0) := by
    refine ⟨fun a b hab hba => absurd (hanti a b) ?_⟩
    omega
  exact List.eq_of_perm_of_sorted hp h₁ h₂

theorem jsValLt_asymm (x y : ListaView.JsVal)
    (h : ListaView.jsValLt x y = true) : ListaView.jsValLt y x = false := by
  cases x <;> cases y <;> simp_all [ListaView.jsValLt] <;> exact le_of_lt h

theorem jsValLt_trans (x y z : ListaView.JsVal)
    (h1 : ListaView.jsValLt x y = true) (h2 : ListaView.jsValLt y z = true) :
    ListaView.jsValLt x z = true := by
  cases x <;> cases y <;> cases z <;> simp_all [ListaView.jsValLt] <;>
    exact lt_trans h1 h2

theorem compareVals_anti (x y : ListaView.JsVal) :
    ListaView.compareVals x y = -ListaView.compareVals y x := by
  unfold ListaView.compareVals
  by_cases h1 : ListaView.jsValLt y x = true
  · have h2 := jsValLt_asymm y x h1
    simp [h1, h2]
  · by_cases h2 : ListaView.jsValLt x y = true
    · simp [h1, h2]
    · simp [h1, h2]

theorem compareVals_lt_elim (x y : ListaView.JsVal)
    (h : ListaView.compareVals x y < 0) : ListaView.jsValLt x y = true := by
  unfold ListaView.compareVals at h
  by_cases h1 : ListaView.jsValLt y x = true
  · simp [h1] at h
  · by_cases h2 : ListaView.jsValLt x y = true
    · exact h2
    · simp [h1, h2] at h

theorem compareVals_lt_intro (x y : ListaView.JsVal)
    (h : ListaView.jsValLt x y = true) : ListaView.compareVals x y < 0 := by
  have h2 := jsValLt_asymm x y h
  unfold ListaView.compareVals
  simp [h, h2]

theorem compareRows_desc (f : ListaView.SortField) (a b : DetalleCompra) :
    ListaView.compareRows ⟨f, .desc⟩ a b = ListaView.compareRows ⟨f, .asc⟩ b a := by
  unfold ListaView.compareRows
  cases hx : ListaView.getField f a with
  | none => cases hy : ListaView.getField f b <;> simp
  | some va =>
    cases hy : ListaView.getField f b with
    | none => simp
    | some vb =>
      show -ListaView.compareVals va vb = ListaView.compareVals vb va
      have h := compareVals_anti va vb
      omega

theorem compareRows_asc_anti (f : ListaView.SortField) (a b : DetalleCompra) :
    ListaView.compareRows ⟨f, .asc⟩ a b = -ListaView.compareRows ⟨f, .asc⟩ b a := by
  unfold ListaView.compareRows
  cases hx : ListaView.getField f a with
  | none => cases hy : ListaView.getField f b <;> simp
  | some va =>
    cases hy : ListaView.getField f b with
    | none => simp
    | some vb =>
      show ListaView.compareVals va vb = -ListaView.compareVals vb va
      exact compareVals_anti va vb

theorem compareRows_anti (cfg : ListaView.SortConfig) (a b : DetalleCompra) :
    ListaView.compareRows cfg a b = -ListaView.compareRows cfg b a := by
  obtain ⟨f, dir⟩ := cfg
  cases dir
  · exact compareRows_asc_anti f a b
  · rw [compareRows_desc, compareRows_desc, compareRows_asc_anti]

theorem compareRows_asc_lt_trans (f : ListaView.SortField) (a b c : DetalleCompra)
    (h1 : ListaView.compareRows ⟨f, .asc⟩ a b < 0)
    (h2 : ListaView.compareRows ⟨f, .asc⟩ b c < 0) :
    ListaView.compareRows ⟨f, .asc⟩ a c < 0 := by
  unfold ListaView.compareRows at h1 h2 ⊢
  dsimp only at h1 h2 ⊢
  cases hA : ListaView.getField f a with
  | none => rw [hA] at h1; simp at h1
  | some va =>
    rw [hA] at h1
    cases hB : ListaView.getField f b with
    | none => rw [hB] at h1; simp at h1
    | some vb =>
      rw [hB] at h1
      rw [hB] at h2
      cases hC : ListaView.getField f c with
      | none => rw [hC] at h2; simp at h2
      | some vc =>
        rw [hC] at h2
        have h1' : ListaView.compareVals va vb < 0 := h1
        have h2' : ListaView.compareVals vb vc < 0 := h2
        show ListaView.compareVals va vc < 0
        exact compareVals_lt_intro _ _
          (jsValLt_trans _ _ _ (compareVals_lt_elim _ _ h1') (compareVals_lt_elim _ _ h2'))

theorem compareRows_lt_trans (cfg : ListaView.SortConfig) (a b c : DetalleCompra)
    (h1 : ListaView.compareRows cfg a b < 0)
    (h2 : ListaView.compareRows cfg b c < 0) :
    ListaView.compareRows cfg a c < 0 := by
  obtain ⟨f, dir⟩ := cfg
  cases dir
  · exact compareRows_asc_lt_trans f a b c h1 h2
  · rw [compareRows_desc] at h1 h2 ⊢
    exact compareRows_asc_lt_trans f c b a h2 h1

theorem compareRows_ne_symm (cfg : ListaView.SortConfig) (a b : DetalleCompra)
    (h : ListaView.compareRows cfg a b ≠ 0) :
    ListaView.compareRows cfg b a ≠ 0 := by
  rw [compareRows_anti cfg b a]
  simpa using h

/-- C6: sorting ascending on a field and then sorting the result descending on
the same field reverses the ascending order exactly, whenever no two rows
compare equal on that field. -/
theorem claim_C6 (rows : List DetalleCompra) (f : ListaView.SortField)
    (h : rows.Pairwise (fun a b => ListaView.compareRows ⟨f, .asc⟩ a b ≠ 0)) :
    ListaView.sortCompras ⟨f, .desc⟩ (ListaView.sortCompras ⟨f, .asc⟩ rows) =
      (ListaView.sortCompras ⟨f, .asc⟩ rows).reverse := by
  have hantiA : ∀ a b, ListaView.compareRows ⟨f, .asc⟩ a b =
      -ListaView.compareRows ⟨f, .asc⟩ b a := fun a b => compareRows_anti _ a b
  have hantiD : ∀ a b, ListaView.compareRows ⟨f, .desc⟩ a b =
      -ListaView.compareRows ⟨f, .desc⟩ b a := fun a b => compareRows_anti _ a b
  have htransA := fun a b c => compareRows_lt_trans ⟨f, .asc⟩ a b c
  have htransD := fun a b c => compareRows_lt_trans ⟨f, .desc⟩ a b c
  have hperm_u : (ListaView.sortCompras ⟨f, .asc⟩ rows).Perm rows :=
    List.perm_insertionSort _ rows
  have hne_u : (ListaView.sortCompras ⟨f, .asc⟩ rows).Pairwise
      (fun a b => ListaView.compareRows ⟨f, .asc⟩ a b ≠ 0) :=
    h.perm hperm_u.symm (fun hxy => compareRows_ne_symm _ _ _ hxy)
  have hlt_u : (ListaView.sortCompras ⟨f, .asc⟩ rows).Pairwise
      (fun a b => ListaView.compareRows ⟨f, .asc⟩ a b < 0) :=
    insertionSort_pairwise_lt _ hantiA htransA rows h
  have hne_uD : (ListaView.sortCompras ⟨f, .asc⟩ rows).Pairwise
      (fun a b => ListaView.compareRows ⟨f, .desc⟩ a b ≠ 0) := by
    refine hne_u.imp (fun {a b} hab => ?_)
    rw [compareRows_desc]
    exact compareRows_ne_symm _ _ _ hab
  have hlt_v : (ListaView.sortCompras ⟨f, .desc⟩
      (ListaView.sortCompras ⟨f, .asc⟩ rows)).Pairwise
      (fun a b => ListaView.compareRows ⟨f, .desc⟩ a b < 0) :=
    insertionSort_pairwise_lt _ hantiD htransD _ hne_uD
  have hrev : (ListaView.sortCompras ⟨f, .asc⟩ rows).reverse.Pairwise
      (fun a b => ListaView.compareRows ⟨f, .desc⟩ a b < 0) := by
    rw [List.pairwise_reverse]
    refine hlt_u.imp (fun {a b} hab => ?_)
    rw [compareRows_desc]
    exact hab
  have hperm_v : (ListaView.sortCompras ⟨f, .desc⟩
      (ListaView.sortCompras ⟨f, .asc⟩ rows)).Perm
      (ListaView.sortCompras ⟨f, .asc⟩ rows).reverse :=
    (List.perm_insertionSort _ _).trans
      (ListaView.sortCompras ⟨f, .asc⟩ rows).reverse_perm.symm
  exact eq_of_perm_of_pairwise_lt _ hantiD _ _ hperm_v hlt_v hrev

theorem claim_C6_witness :
    ([row300, row100, row200].Pairwise
      (fun a b => ListaView.compareRows ⟨.folio, .asc⟩ a b ≠ 0)) ∧
    ListaView.sortCompras ⟨.folio, .desc⟩
        (ListaView.sortCompras ⟨.folio, .asc⟩ [row300, row100, row200]) =
      (ListaView.sortCompras ⟨.folio, .asc⟩ [row300, row100, row200]).reverse :=
  ⟨by decide, claim_C6 [row300, row100, row200] .folio (by decide)⟩
